import Mathlib

/-
Verification of the BioCroInterface specification against a shallow
embedding of the repository's code.

The repository is an interface layer: src/ holds the public headers
(BioCro.h, BioCro_Extended.h), the safety wrappers (safe_simulators.h)
and the test suite.  The engine itself (dynamical_system,
biocro_simulation, ode_solver, the module classes) lives in the external
BioCro framework and is not part of src/; those parts are modelled from
the spec (and from the behaviour pinned down by the tests in src/), as
marked in the doc comments below.  Doubles are modelled as rationals;
quantity mappings (state_map) as association lists.
-/

namespace BioCro

/-- Quantity identity is its name, a string. -/
abbrev Quantity := String

/-- Modelled from the spec: state_map (framework/state_map.h is not in the
repository).  A mapping from quantity names to values; double-precision
values are modelled as rationals. -/
abbrev StateMap := List (Quantity × ℚ)

/-- Look a quantity up in a StateMap; first binding wins.  A missing key
yields 0 (the validator guarantees the engine never reads a missing key). -/
def lookupQ : StateMap → Quantity → ℚ
  | [], _ => 0
  | (k, v) :: rest, q => if k = q then v else lookupQ rest q

/-- Overwrite the binding of a quantity (insert it if absent), as the
bracket operator of state_map does. -/
def setQ : StateMap → Quantity → ℚ → StateMap
  | [], q, v => [(q, v)]
  | (k, w) :: rest, q, v =>
      if k = q then (k, v) :: rest else (k, w) :: setQ rest q v

/-- Add to the current value of a quantity (accumulating update). -/
def addQ (m : StateMap) (q : Quantity) (v : ℚ) : StateMap :=
  setQ m q (lookupQ m q + v)

/-- Keys of a StateMap, in order. -/
def keysQ (m : StateMap) : List Quantity := m.map Prod.fst

/-- Modelled from the spec: the module contract of section 4.1
(framework/module_creator.h and the module classes are not in the
repository).  A module creator exposes a stable name, its library, the
input and output quantity names, and the pure computation from an input
snapshot to its output values. -/
structure ModuleDef where
  name : String
  library : String
  inputs : List Quantity
  outputs : List Quantity
  compute : StateMap → StateMap

/-- Modelled from the spec: running a steady-state (direct) module
overwrites each of its output keys in the bound output mapping. -/
def run_direct (m : ModuleDef) (input : StateMap) (out : StateMap) : StateMap :=
  m.outputs.foldl (fun acc k => setQ acc k (lookupQ (m.compute input) k)) out

/-- Modelled from the spec: running a differential module accumulates each
of its output values onto the existing value in the bound output mapping
(additive semantics, section 4.1 run contract). -/
def run_differential (m : ModuleDef) (input : StateMap) (out : StateMap) : StateMap :=
  m.outputs.foldl (fun acc k => addQ acc k (lookupQ (m.compute input) k)) out

/-- Modelled from the spec: the rate computed by the standardBML
thermal_time_linear module, as documented by
ModuleObjectTest.expected_output_value in src/test_module_object.cpp:
zero before sowing or at or below the base temperature, otherwise
(temp - tbase) / 24 (hourly timestep units). -/
def thermal_time_linear_rate (time sowing_time temp tbase : ℚ) : ℚ :=
  if time < sowing_time then 0
  else if temp ≤ tbase then 0
  else (temp - tbase) / 24

/-- Modelled from the spec: the standardBML thermal_time_linear module
(module_library/thermal_time_linear.h is not in the repository). -/
def thermal_time_linear : ModuleDef :=
  { name := "thermal_time_linear"
    library := "standardBML"
    inputs := ["time", "sowing_time", "temp", "tbase"]
    outputs := ["TTc"]
    compute := fun q =>
      [("TTc", thermal_time_linear_rate (lookupQ q "time") (lookupQ q "sowing_time")
          (lookupQ q "temp") (lookupQ q "tbase"))] }

/-- Modelled from the spec: the testBML thermal_time_linear module, which
assumes timestep values in days rather than hours, so its rate is 24
times as large as the standardBML one (comment in
src/test_multiple_module_libraries.cpp, lines 94-99). -/
def thermal_time_linear_testBML : ModuleDef :=
  { name := "thermal_time_linear"
    library := "testBML"
    inputs := ["time", "sowing_time", "temp", "tbase"]
    outputs := ["TTc"]
    compute := fun q =>
      [("TTc", 24 * thermal_time_linear_rate (lookupQ q "time") (lookupQ q "sowing_time")
          (lookupQ q "temp") (lookupQ q "tbase"))] }

/-- Modelled from the spec: the solar_position_michalsky direct module.
Its geometric content is excluded from the spec (section 6); only its
declared interface matters for the composition claims.  It is defined
identically in standardBML and testBML apart from the namespace
(comment in src/test_multiple_module_libraries.cpp, lines 126-128), so
the two library versions declare the same output set. -/
def solar_position_michalsky : ModuleDef :=
  { name := "solar_position_michalsky"
    library := "standardBML"
    inputs := ["lat", "longitude", "time_zone_offset", "year", "time"]
    outputs := ["cosine_zenith_angle", "solar_azimuth_angle", "solar_zenith_angle"]
    compute := fun _ =>
      [("cosine_zenith_angle", 0), ("solar_azimuth_angle", 0), ("solar_zenith_angle", 0)] }

/-- Modelled from the spec: the testBML copy of solar_position_michalsky,
identical except for its library. -/
def solar_position_michalsky_testBML : ModuleDef :=
  { solar_position_michalsky with library := "testBML" }

/-- Construction arguments of a dynamical system: the initial state (the
differential quantities), the parameters, the drivers (name paired with
one value per time point), and the two module sets. -/
structure SystemSpec where
  initial_state : StateMap
  parameters : StateMap
  drivers : List (Quantity × List ℚ)
  direct_modules : List ModuleDef
  differential_modules : List ModuleDef

/-- Modelled from the spec: the quantity names defined by the inputs of a
dynamical system, with multiplicity: initial-state keys, parameter keys,
driver names and the outputs of the direct (steady-state) modules.
Differential-module outputs are excluded, because multiple differential
modules may jointly contribute to the same derivative (section 3 of the
spec; MultipleModuleLibrariesTest.CompatibleModules). -/
def defined_quantities (s : SystemSpec) : List Quantity :=
  keysQ s.initial_state ++ keysQ s.parameters ++ s.drivers.map Prod.fst
    ++ (s.direct_modules.map ModuleDef.outputs).flatten

/-- Modelled from the spec: the quantity names defined more than once in
the inputs of a dynamical system (each name listed once). -/
def duplicated_quantities (s : SystemSpec) : List Quantity :=
  ((defined_quantities s).filter
    (fun x => decide (2 ≤ (defined_quantities s).count x))).dedup

/-- Every input name required by some module of either set. -/
def required_inputs (s : SystemSpec) : List Quantity :=
  ((s.direct_modules ++ s.differential_modules).map ModuleDef.inputs).flatten

/-- Modelled from the spec: the required inputs not satisfied by the state,
the parameters, the drivers or any direct-module output. -/
def unresolved_inputs (s : SystemSpec) : List Quantity :=
  ((required_inputs s).filter (fun x => !(defined_quantities s).contains x)).dedup

/-- Construction-time failures of a dynamical system (section 7 of the
spec: composition errors are fatal and carry the offending names). -/
inductive ConstructionError where
  | duplicated (names : List Quantity)
  | unresolved (names : List Quantity)
deriving Repr

/-- Modelled from the spec: the text of the duplicate-quantity logic_error
thrown by the dynamical_system constructor, naming every duplicated
quantity (regex in src/test_multiple_module_libraries.cpp, lines 129-132). -/
def construction_error_message : ConstructionError → String
  | .duplicated names =>
      "Thrown by dynamical_system::dynamical_system: the supplied inputs "
        ++ "cannot form a valid dynamical system.\n"
        ++ "The following quantities were defined more than once in the inputs: "
        ++ String.intercalate ", " names
  | .unresolved names =>
      "Thrown by dynamical_system::dynamical_system: the supplied inputs "
        ++ "cannot form a valid dynamical system.\n"
        ++ "The following quantities are required but are not defined: "
        ++ String.intercalate ", " names

/-- Modelled from the spec: a dynamical system owns its construction
inputs and a current state covering the differential quantities. -/
structure DynamicalSystem where
  spec : SystemSpec
  current : StateMap

/-- Modelled from the spec: dynamical-system construction validates the
composition (fail fast with every duplicated quantity, then with every
unresolved input) and starts the current state at the initial state. -/
def make_dynamical_system (s : SystemSpec) : Except ConstructionError DynamicalSystem :=
  if duplicated_quantities s ≠ [] then
    .error (.duplicated (duplicated_quantities s))
  else if unresolved_inputs s ≠ [] then
    .error (.unresolved (unresolved_inputs s))
  else
    .ok ⟨s, s.initial_state⟩

/-- Modelled from the spec: reset restores the internal state to exactly
the initial state supplied at construction. -/
def reset (d : DynamicalSystem) : DynamicalSystem :=
  { d with current := d.spec.initial_state }

/-- Number of time points, determined by the length of the driver series. -/
def ntimes (s : SystemSpec) : Nat :=
  match s.drivers with
  | [] => 0
  | (_, vs) :: _ => vs.length

/-- Driver values at a given discrete time index. -/
def drivers_at (s : SystemSpec) (i : Nat) : StateMap :=
  s.drivers.map (fun p => (p.1, p.2.getD i 0))

/-- Ordered list of the differential quantity names (the order of the
initial state), as get_differential_quantity_names returns it. -/
def differential_quantity_names (s : SystemSpec) : List Quantity :=
  keysQ s.initial_state

/-- Modelled from the spec, evaluate steps (1)-(2) of section 4.3: the full
quantity snapshot at a time index: current state, parameters and the
drivers at that index, with every direct module then run in supplied
order, overwriting its outputs in the snapshot. -/
def quantities_at (s : SystemSpec) (state : StateMap) (i : Nat) : StateMap :=
  s.direct_modules.foldl (fun q m => run_direct m q q)
    (state ++ s.parameters ++ drivers_at s i)

/-- Modelled from the spec, evaluate steps (3)-(4) of section 4.3: zero the
differential outputs, then run every differential module with additive
accumulation, producing the derivative mapping. -/
def derivatives (s : SystemSpec) (state : StateMap) (i : Nat) : StateMap :=
  let q := quantities_at s state i
  s.differential_modules.foldl (fun out m => run_differential m q out)
    ((differential_quantity_names s).map (fun k => (k, (0 : ℚ))))

/-- Modelled from the spec: one fixed-step explicit Euler step of size h at
time index i, advancing every differential quantity by h times its
derivative. -/
def euler_step (s : SystemSpec) (h : ℚ) (state : StateMap) (i : Nat) : StateMap :=
  state.map (fun p => (p.1, p.2 + h * lookupQ (derivatives s state i) p.1))

/-- Modelled from the spec: the fixed-step integration loop.  Starting at
time index i with n time points remaining, record the snapshot row for
each time point and take one Euler step per driver interval (n - 1 steps
for n rows); returns the recorded rows and the final state, which is the
state at the last recorded row. -/
def run_rows (s : SystemSpec) (h : ℚ) : Nat → Nat → StateMap → List StateMap × StateMap
  | _, 0, st => ([], st)
  | i, 1, st => ([quantities_at s st i], st)
  | i, n + 2, st =>
      let row := quantities_at s st i
      let rest := run_rows s h (i + 1) (n + 1) (euler_step s h st i)
      (row :: rest.1, rest.2)

/-- Modelled from the spec: the fixed-step ode_solver (boost_euler and
homemade_euler).  It stores its configured output step size and, after an
integration, the number of steps the last integration required. -/
structure OdeSolver where
  step_size : ℚ
  steps_taken : Option Nat

/-- Everything an integration call produces: the tabular result (one row
per driver time point), the mutated system and the mutated solver. -/
structure IntegrationOutput where
  result : List StateMap
  system : DynamicalSystem
  solver : OdeSolver

/-- Modelled from the spec: integrate drives the system across every time
point defined by its drivers, starting from the current state (not the
initial state), leaves the system at the state of the last row, and
records that the integration took ntimes - 1 steps (one per driver
interval, fixed-step). -/
def integrate (sol : OdeSolver) (d : DynamicalSystem) : IntegrationOutput :=
  let n := ntimes d.spec
  let rr := run_rows d.spec sol.step_size 0 n d.current
  ⟨rr.1, { d with current := rr.2 }, { sol with steps_taken := some (n - 1) }⟩

/-- The sentinel report returned before any integration has been run. -/
def not_called_message : String := "The ode_solver has not been called yet"

/-- Modelled from the spec: the human-readable integration report; the
sentinel before the first integration, afterwards the step-count line
matched by DynamicalSystemTest.IntegrationReportIsCorrect. -/
def generate_integrate_report (sol : OdeSolver) : String :=
  match sol.steps_taken with
  | none => not_called_message
  | some k =>
      "boost::numeric::odeint::integrate_const required " ++ toString k
        ++ " steps to integrate the system\n"

/-- The constructor arguments shared by the Simulator and all three
wrappers in src/safe_simulators.h: the dynamical-system inputs plus the
ode_solver_factory parameters. -/
structure SimulatorArgs where
  spec : SystemSpec
  ode_solver_name : String
  output_step_size : ℚ
  adaptive_rel_error_tol : ℚ
  adaptive_abs_error_tol : ℚ
  adaptive_max_steps : Nat

/-- Modelled from the spec: make_ode_solver (BioCro_Extended.h); the
fixed-step solvers used by every test scenario keep only the output step
size, starting with no integration on record. -/
def make_ode_solver (a : SimulatorArgs) : OdeSolver :=
  { step_size := a.output_step_size, steps_taken := none }

/-- Modelled from the spec: biocro_simulation (BioCro.h names it
Simulator; framework/biocro_simulation.h is not in the repository).  It
owns a dynamical system and a solver built from the constructor
arguments. -/
structure Simulator where
  sys : DynamicalSystem
  solver : OdeSolver

/-- Modelled from the spec: Simulator construction builds the dynamical
system (propagating its construction errors) and the solver. -/
def make_simulator (a : SimulatorArgs) : Except ConstructionError Simulator :=
  (make_dynamical_system a.spec).map (fun d => ⟨d, make_ode_solver a⟩)

/-- Modelled from the spec: Simulator.run_simulation integrates the owned
system from its current state, without resetting first (section 4.5:
repeated calls continue from wherever the previous run left off, which
is why the DISABLED_runSimulationIsIdempotent test fails).  Returns the
result table and the mutated simulator. -/
def Simulator.run_simulation (sim : Simulator) : List StateMap × Simulator :=
  let out := integrate sim.solver sim.sys
  (out.result, ⟨out.system, out.solver⟩)

/-- Translated from src/safe_simulators.h, lines 11-52: the reset-before-
run wrapper owns the dynamical system and the solver built from the
constructor arguments. -/
structure Idempotent_simulator where
  sys : DynamicalSystem
  system_solver : OdeSolver

/-- Translated from src/safe_simulators.h, lines 27-41: the constructor
creates the system via make_dynamical_system and the solver via
make_ode_solver. -/
def make_idempotent_simulator (a : SimulatorArgs) :
    Except ConstructionError Idempotent_simulator :=
  (make_dynamical_system a.spec).map (fun d => ⟨d, make_ode_solver a⟩)

/-- Translated from src/safe_simulators.h, lines 43-47: run_simulation
resets the system, then integrates it; the mutated system and solver are
kept for the next call. -/
def Idempotent_simulator.run_simulation (sim : Idempotent_simulator) :
    List StateMap × Idempotent_simulator :=
  let out := integrate sim.system_solver (reset sim.sys)
  (out.result, ⟨out.system, out.solver⟩)

/-- Translated from src/safe_simulators.h, lines 59-118: the rebuild-per-
run wrapper stores only the construction arguments (the caller keeps the
referenced argument objects alive and unmodified, which the value
semantics here presumes). -/
structure Alternate_idempotent_simulator where
  args : SimulatorArgs

/-- Translated from src/safe_simulators.h, lines 90-105: run_simulation
constructs a brand-new Simulator from the stored arguments, runs it once
and discards it; the wrapper itself is unchanged.  Construction of the
local Simulator can fail, so the result is an Except value. -/
def Alternate_idempotent_simulator.run_simulation
    (sim : Alternate_idempotent_simulator) :
    Except ConstructionError (List StateMap) × Alternate_idempotent_simulator :=
  ((make_simulator sim.args).map (fun s => (Simulator.run_simulation s).1), sim)

/-- Failures observable from a run_simulation call: construction errors,
evaluation or solver errors raised inside a run, and usage errors. -/
inductive SimulationError where
  | construction (e : ConstructionError)
  | evaluation (message : String)
  | usage (message : String)

/-- Message of the usage error thrown by Single_use_simulator
(src/safe_simulators.h, line 131). -/
def single_use_message : String := "A Single_use_simulator can only be run once."

/-- Translated from src/safe_simulators.h, lines 123-139: a single-use
wrapper around an underlying simulator of type A, with the has_been_run
flag starting false.  The underlying simulator is kept abstract so that
the flag discipline can be stated for any delegate, fallible or not. -/
structure Single_use_sim (A : Type) where
  base : A
  has_been_run : Bool

/-- Translated from src/safe_simulators.h, lines 128-135: if the flag is
already set, fail with the usage error; otherwise set the flag FIRST and
then delegate to the underlying run operation u, whose outcome (success
or error) is returned unchanged together with the mutated wrapper. -/
def single_use_run {A : Type}
    (u : A → Except SimulationError (List StateMap) × A)
    (s : Single_use_sim A) :
    Except SimulationError (List StateMap) × Single_use_sim A :=
  if s.has_been_run then
    (.error (.usage single_use_message), s)
  else
    let r := u s.base
    (r.1, ⟨r.2, true⟩)

/-- Applies single_use_run n times, keeping only the final wrapper state. -/
def single_use_iterate {A : Type}
    (u : A → Except SimulationError (List StateMap) × A) :
    Nat → Single_use_sim A → Single_use_sim A
  | 0, s => s
  | n + 1, s => single_use_iterate u n (single_use_run u s).2

/-- The concrete Single_use_simulator of src/safe_simulators.h: a
Single_use_sim over the (in-model infallible) Simulator. -/
def Single_use_simulator := Single_use_sim Simulator

/-- The underlying run operation of the concrete Single_use_simulator:
delegate to Simulator.run_simulation, which always returns a result. -/
def simulator_run_op (sim : Simulator) :
    Except SimulationError (List StateMap) × Simulator :=
  let r := Simulator.run_simulation sim
  (.ok r.1, r.2)

/-- Translated from src/safe_simulators.h, line 125: the inherited
constructor builds the Simulator and starts with the flag unset. -/
def make_single_use_simulator (a : SimulatorArgs) :
    Except ConstructionError Single_use_simulator :=
  (make_simulator a).map (fun s => ⟨s, false⟩)

/-- Concrete run_simulation of Single_use_simulator. -/
def single_use_run_simulation (s : Single_use_simulator) :
    Except SimulationError (List StateMap) × Single_use_simulator :=
  single_use_run simulator_run_op s

/-- Modelled from the spec: the harmonic_oscillator differential module of
the end-to-end scenario in section 8 (dx/dt = v, dv/dt = -k x / m). -/
def harmonic_oscillator : ModuleDef :=
  { name := "harmonic_oscillator"
    library := "standardBML"
    inputs := ["position", "velocity", "mass", "spring_constant"]
    outputs := ["position", "velocity"]
    compute := fun q =>
      [("position", lookupQ q "velocity"),
       ("velocity", -(lookupQ q "spring_constant") * lookupQ q "position"
          / lookupQ q "mass")] }

/-- The fixture of BiocroSimulationTest in src/test_repeat_runs.cpp: one
thermal_time_linear differential module, six time points. -/
def repeat_runs_spec : SystemSpec :=
  { initial_state := [("TTc", 0)]
    parameters := [("sowing_time", 0), ("tbase", 5), ("temp", 11), ("timestep", 1)]
    drivers := [("time", [0, 1, 2, 3, 4, 5])]
    direct_modules := []
    differential_modules := [thermal_time_linear] }

/-- The simulator arguments of the tests in src/test_repeat_runs.cpp. -/
def repeat_runs_args : SimulatorArgs :=
  { spec := repeat_runs_spec
    ode_solver_name := "homemade_euler"
    output_step_size := 1
    adaptive_rel_error_tol := 1 / 10000
    adaptive_abs_error_tol := 1 / 10000
    adaptive_max_steps := 200 }

/-- The fixture of MultipleModuleLibrariesTest in
src/test_multiple_module_libraries.cpp with the extra parameters of the
CompatibleModules test, holding the given differential modules. -/
def multi_library_spec (diff : List ModuleDef) : SystemSpec :=
  { initial_state := [("TTc", 0)]
    parameters := [("timestep", 1), ("sowing_time", 0), ("tbase", 10)]
    drivers := [("time", [0, 1, 2, 3, 4, 5, 6, 7, 8, 9]),
                ("temp", [5, 8, 10, 15, 20, 20, 25, 30, 32, 40])]
    direct_modules := []
    differential_modules := diff }

/-- The fixture of MultipleModuleLibrariesTest with the extra parameters
and the two conflicting solar_position_michalsky direct modules of the
ConflictingModules test. -/
def conflicting_spec : SystemSpec :=
  { initial_state := [("TTc", 0)]
    parameters := [("timestep", 1), ("lat", 44), ("longitude", -121),
                   ("time_zone_offset", -8), ("year", 2023)]
    drivers := [("time", [0, 1, 2, 3, 4, 5, 6, 7, 8, 9]),
                ("temp", [5, 8, 10, 15, 20, 20, 25, 30, 32, 40])]
    direct_modules := [solar_position_michalsky, solar_position_michalsky_testBML]
    differential_modules := [] }

/-- The fixture of DynamicalSystemTest in src/test_dynamical_system.cpp:
the harmonic oscillator over five time points of one anonymous driver. -/
def dynamical_system_test_spec : SystemSpec :=
  { initial_state := [("position", 0), ("velocity", 1)]
    parameters := [("mass", 10), ("spring_constant", 1 / 10), ("timestep", 1)]
    drivers := [("some_driver", [0, 1, 2, 3, 4])]
    direct_modules := []
    differential_modules := [harmonic_oscillator] }

/-- The solver of DynamicalSystemTest (boost_euler, step size 1). -/
def dynamical_system_test_solver : OdeSolver :=
  { step_size := 1, steps_taken := none }

/-- Final value of a quantity in a result table (the value in the last
row), as get_final_result_state reads it. -/
def final_value (result : List StateMap) (q : Quantity) : ℚ :=
  lookupQ (result.getD (result.length - 1) []) q

/-- Char-list version of substring occurrence: does the haystack start
with the needle? -/
def chars_begin_with : List Char → List Char → Bool
  | [], _ => true
  | _ :: _, [] => false
  | a :: as, b :: bs => a == b && chars_begin_with as bs

/-- Does the needle occur as a contiguous run inside the haystack? -/
def chars_contain (haystack needle : List Char) : Bool :=
  match haystack with
  | [] => needle.isEmpty
  | _ :: t => chars_begin_with needle haystack || chars_contain t needle

/-- String containment check used to state that a report does or does not
contain a given message. -/
def string_contains (haystack needle : String) : Bool :=
  chars_contain haystack.toList needle.toList

/-- Applying a sequence of integrations to a dynamical system, threading
the mutated system through (the solver states are irrelevant to the
system itself). -/
def integrate_sequence : List OdeSolver → DynamicalSystem → DynamicalSystem
  | [], d => d
  | sol :: rest, d => integrate_sequence rest (integrate sol d).system

/-- The system of the CompatibleModules test after both thermal_time_linear
modules (one per library) have been added as differential modules. -/
def compatible_spec : SystemSpec :=
  multi_library_spec [thermal_time_linear, thermal_time_linear_testBML]

/-- Simulator arguments used by MultipleModuleLibrariesTest.get_simulator. -/
def multi_library_args (diff : List ModuleDef) : SimulatorArgs :=
  { spec := multi_library_spec diff
    ode_solver_name := "homemade_euler"
    output_step_size := 1
    adaptive_rel_error_tol := 1 / 10000
    adaptive_abs_error_tol := 1 / 10000
    adaptive_max_steps := 200 }

/-- Final accumulated TTc of a full simulation of the
MultipleModuleLibrariesTest fixture with the given differential modules
(0 if construction fails). -/
def simulator_final_TTc (diff : List ModuleDef) : ℚ :=
  match make_simulator (multi_library_args diff) with
  | .ok s => final_value (Simulator.run_simulation s).1 "TTc"
  | .error _ => 0

/-- The freshly constructed dynamical system of DynamicalSystemTest. -/
def dynamical_system_test_system : DynamicalSystem :=
  ⟨dynamical_system_test_spec, dynamical_system_test_spec.initial_state⟩

/-- The outcome of the single integration of DynamicalSystemTest. -/
def dynamical_system_test_run : IntegrationOutput :=
  integrate dynamical_system_test_solver dynamical_system_test_system

/-- The Idempotent_simulator constructed from the BiocroSimulationTest
arguments (the value make_idempotent_simulator returns on them). -/
def repeat_runs_idem_sim : Idempotent_simulator :=
  ⟨⟨repeat_runs_spec, repeat_runs_spec.initial_state⟩, ⟨1, none⟩⟩

/-- The Single_use_simulator constructed from the BiocroSimulationTest
arguments (the value make_single_use_simulator returns on them). -/
def repeat_runs_single_use_sim : Single_use_simulator :=
  ⟨⟨⟨repeat_runs_spec, repeat_runs_spec.initial_state⟩, ⟨1, none⟩⟩, false⟩

/-- Integration never changes the construction inputs of a system, only
its current state. -/
theorem integrate_sequence_spec (sols : List OdeSolver) (d : DynamicalSystem) :
    (integrate_sequence sols d).spec = d.spec := by
  induction sols generalizing d with
  | nil => rfl
  | cons sol rest ih => exact (ih (integrate sol d).system).trans rfl

/-- An already-used single-use wrapper is left unchanged by any further
sequence of run attempts (each one fails without delegating). -/
theorem single_use_iterate_fixed {A : Type}
    (u : A → Except SimulationError (List StateMap) × A) (n : Nat)
    (s : Single_use_sim A) (h : s.has_been_run = true) :
    single_use_iterate u n s = s := by
  induction n with
  | zero => rfl
  | succ n ih => simp [single_use_iterate, single_use_run, h, ih]

/-- Claim C2: after any sequence of integrations, reset restores every
differential quantity of the internal state to the value it had in the
initial state supplied at construction, and reset is idempotent. -/
theorem reset_restores_initial_state (d : DynamicalSystem) (sols : List OdeSolver) :
    (∀ q : Quantity,
      lookupQ (reset (integrate_sequence sols d)).current q
        = lookupQ d.spec.initial_state q)
    ∧ reset (reset (integrate_sequence sols d)) = reset (integrate_sequence sols d) := by
  constructor
  · intro q
    show lookupQ (integrate_sequence sols d).spec.initial_state q = _
    rw [integrate_sequence_spec]
  · rfl

/-- Claim C3: for the reset-before-run wrapper and the rebuild-per-run
wrapper, two consecutive run_simulation calls on the same object produce
identical result tables. -/
theorem run_simulation_idempotent (sim : Idempotent_simulator)
    (alt : Alternate_idempotent_simulator) :
    (Idempotent_simulator.run_simulation sim).1
      = (Idempotent_simulator.run_simulation
          (Idempotent_simulator.run_simulation sim).2).1
    ∧ (Alternate_idempotent_simulator.run_simulation alt).1
      = (Alternate_idempotent_simulator.run_simulation
          (Alternate_idempotent_simulator.run_simulation alt).2).1 :=
  ⟨rfl, rfl⟩

/-- Claim C9: the single-use wrapper sets its has_been_run flag before
delegating, so the first call's outcome is exactly the underlying run's
outcome (error or result), the flag is consumed either way, and every
later call fails with the usage error instead of retrying the run. -/
theorem single_use_marks_used_before_delegating {A : Type}
    (u : A → Except SimulationError (List StateMap) × A) (b : A) (n : Nat) :
    (single_use_run u ⟨b, false⟩).1 = (u b).1
    ∧ (single_use_run u ⟨b, false⟩).2.has_been_run = true
    ∧ (single_use_run u
        (single_use_iterate u n (single_use_run u ⟨b, false⟩).2)).1
        = .error (.usage single_use_message) := by
  refine ⟨rfl, rfl, ?_⟩
  rw [single_use_iterate_fixed u n _ rfl]
  rfl

/-- Claim C8: a fresh solver reports the not-yet-called sentinel; a
fixed-step integration over n driver time points records exactly n - 1
steps, and the report of the DynamicalSystemTest scenario (five time
points) states 4 steps and no longer contains the sentinel. -/
theorem integration_report_behaviour :
    make_dynamical_system dynamical_system_test_spec = .ok dynamical_system_test_system
    ∧ generate_integrate_report dynamical_system_test_solver = not_called_message
    ∧ (∀ (sol : OdeSolver) (d : DynamicalSystem),
        (integrate sol d).solver.steps_taken = some (ntimes d.spec - 1))
    ∧ ntimes dynamical_system_test_spec = 5
    ∧ generate_integrate_report dynamical_system_test_run.solver
        = "boost::numeric::odeint::integrate_const required 4 steps "
            ++ "to integrate the system\n"
    ∧ string_contains (generate_integrate_report dynamical_system_test_run.solver)
        not_called_message = false :=
  ⟨rfl, rfl, fun _ _ => rfl, rfl, rfl, rfl⟩

/-- Claim C6: in the MultipleModuleLibrariesTest reference scenario the
accumulated TTc of the hourly standardBML module alone is 3 + 5/12; with
the daily testBML module added the accumulated TTc is exactly 25 times
that, and it equals the arithmetic sum of the two modules' independent
contributions. -/
theorem differential_outputs_additive :
    simulator_final_TTc [thermal_time_linear] = 3 + 5 / 12
    ∧ simulator_final_TTc [thermal_time_linear, thermal_time_linear_testBML]
        = 25 * (3 + 5 / 12)
    ∧ simulator_final_TTc [thermal_time_linear, thermal_time_linear_testBML]
        = simulator_final_TTc [thermal_time_linear]
          + simulator_final_TTc [thermal_time_linear_testBML] := by
  have h1 : make_simulator (multi_library_args [thermal_time_linear])
      = .ok ⟨⟨multi_library_spec [thermal_time_linear], [("TTc", 0)]⟩, ⟨1, none⟩⟩ := rfl
  have h2 : make_simulator
        (multi_library_args [thermal_time_linear, thermal_time_linear_testBML])
      = .ok ⟨⟨multi_library_spec [thermal_time_linear, thermal_time_linear_testBML],
          [("TTc", 0)]⟩, ⟨1, none⟩⟩ := rfl
  have h3 : make_simulator (multi_library_args [thermal_time_linear_testBML])
      = .ok ⟨⟨multi_library_spec [thermal_time_linear_testBML], [("TTc", 0)]⟩,
          ⟨1, none⟩⟩ := rfl
  refine ⟨?_, ?_, ?_⟩ <;>
    · simp only [simulator_final_TTc, h1, h2, h3]
      simp [multi_library_spec, Simulator.run_simulation, integrate, ntimes, run_rows,
        euler_step, derivatives, quantities_at, drivers_at,
        differential_quantity_names, keysQ, run_direct, run_differential, addQ, setQ,
        lookupQ, thermal_time_linear, thermal_time_linear_rate,
        thermal_time_linear_testBML, final_value]
      norm_num

/-- Claim C7: a differential module's run accumulates into its bound
output mapping: from a zero-initialized output and unchanged inputs, two
runs of thermal_time_linear yield TTc equal to 2 (temp - tbase) / 24
when time is at or after sowing_time and temp exceeds tbase, which is
twice the value after one run. -/
theorem differential_run_accumulates (time sowing_time temp tbase : ℚ)
    (h1 : sowing_time ≤ time) (h2 : tbase < temp) :
    lookupQ (run_differential thermal_time_linear
        [("time", time), ("sowing_time", sowing_time), ("temp", temp), ("tbase", tbase)]
        (run_differential thermal_time_linear
          [("time", time), ("sowing_time", sowing_time), ("temp", temp),
           ("tbase", tbase)]
          [("TTc", 0)])) "TTc"
      = 2 * ((temp - tbase) / 24)
    ∧ lookupQ (run_differential thermal_time_linear
        [("time", time), ("sowing_time", sowing_time), ("temp", temp), ("tbase", tbase)]
        (run_differential thermal_time_linear
          [("time", time), ("sowing_time", sowing_time), ("temp", temp),
           ("tbase", tbase)]
          [("TTc", 0)])) "TTc"
      = 2 * lookupQ (run_differential thermal_time_linear
          [("time", time), ("sowing_time", sowing_time), ("temp", temp),
           ("tbase", tbase)]
          [("TTc", 0)]) "TTc" := by
  have h1' : ¬ time < sowing_time := not_lt.mpr h1
  have h2' : ¬ temp ≤ tbase := not_le.mpr h2
  constructor <;>
    · simp [run_differential, thermal_time_linear, thermal_time_linear_rate,
        addQ, setQ, lookupQ, h1', h2']
      ring

/-- Witness for claim C7 at the concrete ModuleObjectTest inputs (time
200, sowing_time 100, temp 25, tbase 1). -/
theorem differential_run_accumulates_witness :
    (100 : ℚ) ≤ 200 ∧ (1 : ℚ) < 25
    ∧ (lookupQ (run_differential thermal_time_linear
          [("time", 200), ("sowing_time", 100), ("temp", 25), ("tbase", 1)]
          (run_differential thermal_time_linear
            [("time", 200), ("sowing_time", 100), ("temp", 25), ("tbase", 1)]
            [("TTc", 0)])) "TTc"
        = 2 * (((25 : ℚ) - 1) / 24)
      ∧ lookupQ (run_differential thermal_time_linear
          [("time", 200), ("sowing_time", 100), ("temp", 25), ("tbase", 1)]
          (run_differential thermal_time_linear
            [("time", 200), ("sowing_time", 100), ("temp", 25), ("tbase", 1)]
            [("TTc", 0)])) "TTc"
        = 2 * lookupQ (run_differential thermal_time_linear
            [("time", 200), ("sowing_time", 100), ("temp", 25), ("tbase", 1)]
            [("TTc", 0)]) "TTc") :=
  ⟨by norm_num, by norm_num,
    differential_run_accumulates 200 100 25 1 (by norm_num) (by norm_num)⟩

/-- Claim C4: a successfully constructed Single_use_simulator returns a
full result from its first run_simulation call, and every subsequent
call fails with the single-use usage error. -/
theorem single_use_simulator_runs_exactly_once (a : SimulatorArgs)
    (su : Single_use_simulator) (h : make_single_use_simulator a = .ok su) :
    (∃ r : List StateMap, (single_use_run_simulation su).1 = .ok r)
    ∧ ∀ n : Nat,
        (single_use_run_simulation
          (single_use_iterate simulator_run_op (n + 1) su)).1
        = .error (.usage single_use_message) := by
  cases hms : make_simulator a with
  | error e =>
      rw [make_single_use_simulator, hms] at h
      cases h
  | ok s =>
      rw [make_single_use_simulator, hms] at h
      simp only [Except.map, Except.ok.injEq] at h
      subst h
      refine ⟨⟨(Simulator.run_simulation s).1, rfl⟩, fun n => ?_⟩
      show (single_use_run_simulation
        (single_use_iterate simulator_run_op n
          (single_use_run simulator_run_op ⟨s, false⟩).2)).1 = _
      rw [single_use_iterate_fixed simulator_run_op n _ rfl]
      rfl

/-- Witness for claim C4 at the BiocroSimulationTest construction
arguments. -/
theorem single_use_simulator_witness :
    make_single_use_simulator repeat_runs_args = .ok repeat_runs_single_use_sim
    ∧ ((∃ r : List StateMap,
          (single_use_run_simulation repeat_runs_single_use_sim).1 = .ok r)
      ∧ ∀ n : Nat,
          (single_use_run_simulation
            (single_use_iterate simulator_run_op (n + 1)
              repeat_runs_single_use_sim)).1
          = .error (.usage single_use_message)) :=
  ⟨rfl, single_use_simulator_runs_exactly_once repeat_runs_args
    repeat_runs_single_use_sim rfl⟩

/-- Claim C10: constructed from the same (live, unmodified) arguments, the
reset-before-run wrapper and the rebuild-per-run wrapper return equal
simulation results. -/
theorem wrappers_observationally_equivalent (a : SimulatorArgs)
    (sim : Idempotent_simulator) (h : make_idempotent_simulator a = .ok sim) :
    (Alternate_idempotent_simulator.run_simulation ⟨a⟩).1
      = .ok (Idempotent_simulator.run_simulation sim).1 := by
  cases hds : make_dynamical_system a.spec with
  | error e =>
      rw [make_idempotent_simulator, hds] at h
      cases h
  | ok d =>
      rw [make_idempotent_simulator, hds] at h
      simp only [Except.map, Except.ok.injEq] at h
      subst h
      have hd : d = ⟨a.spec, a.spec.initial_state⟩ := by
        rw [make_dynamical_system] at hds
        split at hds
        · cases hds
        · split at hds
          · cases hds
          · exact (Except.ok.injEq _ _).mp hds.symm
      subst hd
      simp [Alternate_idempotent_simulator.run_simulation, make_simulator, hds,
        Except.map, Idempotent_simulator.run_simulation, Simulator.run_simulation,
        reset]

/-- Witness for claim C10 at the BiocroSimulationTest construction
arguments. -/
theorem wrappers_equivalent_witness :
    make_idempotent_simulator repeat_runs_args = .ok repeat_runs_idem_sim
    ∧ (Alternate_idempotent_simulator.run_simulation ⟨repeat_runs_args⟩).1
      = .ok (Idempotent_simulator.run_simulation repeat_runs_idem_sim).1 :=
  ⟨rfl, wrappers_observationally_equivalent repeat_runs_args
    repeat_runs_idem_sim rfl⟩

/-- Counterexample to claim C1 as stated: the two thermal_time_linear
modules (from different libraries) have intersecting output-name sets,
both producing TTc, yet constructing a dynamical system from both — as
MultipleModuleLibrariesTest.CompatibleModules does — succeeds, because
they participate as differential modules, whose outputs may jointly
contribute to the same derivative. -/
theorem output_conflict_claim_counterexample :
    "TTc" ∈ thermal_time_linear.outputs
    ∧ "TTc" ∈ thermal_time_linear_testBML.outputs
    ∧ make_dynamical_system compatible_spec
        = .ok ⟨compatible_spec, compatible_spec.initial_state⟩ :=
  ⟨by simp [thermal_time_linear], by simp [thermal_time_linear_testBML], rfl⟩

/-- Claim C1 (amended): constructing a dynamical system whose DIRECT
(steady-state) module set contains two modules with intersecting
output-name sets — regardless of their libraries — fails at
construction with the duplicated-quantities error, and the reported
name list contains every quantity in the intersection. -/
theorem direct_output_conflict_fails (s : SystemSpec) (m1 m2 : ModuleDef)
    (x : Quantity) (pre mid post : List ModuleDef)
    (hs : s.direct_modules = pre ++ m1 :: (mid ++ m2 :: post))
    (hx1 : x ∈ m1.outputs) (hx2 : x ∈ m2.outputs) :
    make_dynamical_system s = .error (.duplicated (duplicated_quantities s))
    ∧ x ∈ duplicated_quantities s := by
  have hcount : 2 ≤ (defined_quantities s).count x := by
    have h1 : 0 < m1.outputs.count x := List.count_pos_iff.mpr hx1
    have h2 : 0 < m2.outputs.count x := List.count_pos_iff.mpr hx2
    rw [defined_quantities, hs]
    simp only [List.count_append, List.map_append, List.map_cons,
      List.flatten_append, List.flatten_cons]
    omega
  have hmem : x ∈ duplicated_quantities s := by
    rw [duplicated_quantities]
    refine List.mem_dedup.mpr (List.mem_filter.mpr ⟨?_, ?_⟩)
    · exact List.count_pos_iff.mp (lt_of_lt_of_le Nat.zero_lt_two hcount)
    · exact decide_eq_true hcount
  refine ⟨?_, hmem⟩
  rw [make_dynamical_system, if_pos (List.ne_nil_of_mem hmem)]

/-- Witness for the amended claim C1 at the ConflictingModules scenario:
the two solar_position_michalsky direct modules share the output
cosine_zenith_angle and construction fails, reporting it. -/
theorem direct_output_conflict_witness :
    conflicting_spec.direct_modules
      = [] ++ solar_position_michalsky
          :: ([] ++ solar_position_michalsky_testBML :: [])
    ∧ "cosine_zenith_angle" ∈ solar_position_michalsky.outputs
    ∧ "cosine_zenith_angle" ∈ solar_position_michalsky_testBML.outputs
    ∧ (make_dynamical_system conflicting_spec
        = .error (.duplicated (duplicated_quantities conflicting_spec))
      ∧ "cosine_zenith_angle" ∈ duplicated_quantities conflicting_spec) :=
  ⟨rfl, by simp [solar_position_michalsky],
    by simp [solar_position_michalsky_testBML, solar_position_michalsky],
    direct_output_conflict_fails conflicting_spec
      solar_position_michalsky solar_position_michalsky_testBML
      "cosine_zenith_angle" [] [] [] rfl
      (by simp [solar_position_michalsky])
      (by simp [solar_position_michalsky_testBML, solar_position_michalsky])⟩

/-- Key list of a cons cell. -/
theorem keysQ_cons (k : Quantity) (v : ℚ) (rest : StateMap) :
    keysQ ((k, v) :: rest) = k :: keysQ rest := rfl

/-- Key list of an appended map. -/
theorem keysQ_append (A B : StateMap) : keysQ (A ++ B) = keysQ A ++ keysQ B := by
  simp [keysQ]

/-- Looking up a key present in the front part of an appended map reads
the front part. -/
theorem lookupQ_append_mem (A B : StateMap) (q : Quantity) (h : q ∈ keysQ A) :
    lookupQ (A ++ B) q = lookupQ A q := by
  induction A with
  | nil => cases h
  | cons p rest ih =>
      obtain ⟨k, v⟩ := p
      rw [keysQ_cons] at h
      by_cases hk : k = q
      · simp [lookupQ, hk]
      · have h' : q ∈ keysQ rest := by
          rcases List.mem_cons.mp h with h | h
          · exact absurd h.symm hk
          · exact h
        simp [lookupQ, hk, ih h']

/-- Looking up a key absent from the front part of an appended map reads
the back part. -/
theorem lookupQ_append_not_mem (A B : StateMap) (q : Quantity) (h : q ∉ keysQ A) :
    lookupQ (A ++ B) q = lookupQ B q := by
  induction A with
  | nil => rfl
  | cons p rest ih =>
      obtain ⟨k, v⟩ := p
      rw [keysQ_cons] at h
      have hk : k ≠ q := fun he => h (List.mem_cons.mpr (.inl he.symm))
      have hrest : q ∉ keysQ rest := fun hm => h (List.mem_cons.mpr (.inr hm))
      simp [lookupQ, hk, ih hrest]

/-- Overwriting one key leaves the lookup of any other key unchanged. -/
theorem lookupQ_setQ_ne (m : StateMap) (k q : Quantity) (v : ℚ) (h : k ≠ q) :
    lookupQ (setQ m k v) q = lookupQ m q := by
  induction m with
  | nil => simp [setQ, lookupQ, h]
  | cons p rest ih =>
      obtain ⟨a, b⟩ := p
      by_cases ha : a = k
      · simp [setQ, ha, lookupQ, h]
      · simp [setQ, ha, lookupQ, ih]

/-- Setting a run of keys none of which is q leaves the lookup of q
unchanged. -/
theorem lookupQ_fold_setQ (f : Quantity → ℚ) (ks : List Quantity) (out : StateMap)
    (q : Quantity) (h : q ∉ ks) :
    lookupQ (ks.foldl (fun acc k => setQ acc k (f k)) out) q = lookupQ out q := by
  induction ks generalizing out with
  | nil => rfl
  | cons k rest ih =>
      have hk : k ≠ q := fun he => h (by simp [he])
      have hrest : q ∉ rest := fun hm => h (by simp [hm])
      rw [List.foldl_cons, ih (setQ out k (f k)) hrest, lookupQ_setQ_ne _ _ _ _ hk]

/-- Running a direct module does not disturb quantities outside its
declared outputs. -/
theorem run_direct_lookup (m : ModuleDef) (input out : StateMap) (q : Quantity)
    (h : q ∉ m.outputs) :
    lookupQ (run_direct m input out) q = lookupQ out q :=
  lookupQ_fold_setQ _ _ _ _ h

/-- Running a list of direct modules does not disturb quantities outside
all of their declared outputs. -/
theorem direct_fold_lookup (mods : List ModuleDef) (base : StateMap) (q : Quantity)
    (h : q ∉ (mods.map ModuleDef.outputs).flatten) :
    lookupQ (mods.foldl (fun acc m => run_direct m acc acc) base) q
      = lookupQ base q := by
  induction mods generalizing base with
  | nil => rfl
  | cons m rest ih =>
      have hm : q ∉ m.outputs := fun hmem => h (by simp [hmem])
      have hrest : q ∉ (rest.map ModuleDef.outputs).flatten := fun hmem =>
        h (by simp [hmem])
      rw [List.foldl_cons, ih _ hrest, run_direct_lookup _ _ _ _ hm]

/-- In the evaluation snapshot, a differential quantity (present in the
state and untouched by the direct modules) reads its state value. -/
theorem quantities_at_state (s : SystemSpec) (state : StateMap) (i : Nat)
    (q : Quantity) (hq : q ∈ keysQ state)
    (hm : q ∉ (s.direct_modules.map ModuleDef.outputs).flatten) :
    lookupQ (quantities_at s state i) q = lookupQ state q := by
  rw [quantities_at, direct_fold_lookup _ _ _ hm,
    lookupQ_append_mem _ _ _ (by rw [keysQ_append]; exact List.mem_append_left _ hq),
    lookupQ_append_mem _ _ _ hq]

/-- In the evaluation snapshot, a driver quantity (absent from the state,
the parameters and the direct outputs) reads the driver value at the
time index. -/
theorem quantities_at_driver (s : SystemSpec) (state : StateMap) (i : Nat)
    (q : Quantity) (h1 : q ∉ keysQ state) (h2 : q ∉ keysQ s.parameters)
    (hm : q ∉ (s.direct_modules.map ModuleDef.outputs).flatten) :
    lookupQ (quantities_at s state i) q = lookupQ (drivers_at s i) q := by
  rw [quantities_at, direct_fold_lookup _ _ _ hm,
    lookupQ_append_not_mem _ _ _ (by
      rw [keysQ_append]
      intro hmem
      rcases List.mem_append.mp hmem with hc | hc
      · exact h1 hc
      · exact h2 hc)]

/-- One Euler step preserves the key set of the state. -/
theorem keysQ_euler_step (s : SystemSpec) (h : ℚ) (st : StateMap) (i : Nat) :
    keysQ (euler_step s h st i) = keysQ st := by
  simp [keysQ, euler_step, List.map_map, Function.comp]

/-- The final state of the integration loop has the key set of the
starting state. -/
theorem run_rows_final_keys (s : SystemSpec) (h : ℚ) :
    ∀ (n i : Nat) (st : StateMap), keysQ (run_rows s h i n st).2 = keysQ st
  | 0, _, _ => rfl
  | 1, _, _ => rfl
  | n + 2, i, st => by
      have ih := run_rows_final_keys s h (n + 1) (i + 1) (euler_step s h st i)
      show keysQ (run_rows s h (i + 1) (n + 1) (euler_step s h st i)).2 = keysQ st
      rw [ih, keysQ_euler_step]

/-- The integration loop records one row per requested time point. -/
theorem run_rows_length (s : SystemSpec) (h : ℚ) :
    ∀ (n i : Nat) (st : StateMap), (run_rows s h i n st).1.length = n
  | 0, _, _ => rfl
  | 1, _, _ => rfl
  | n + 2, i, st => by
      show (quantities_at s st i
          :: (run_rows s h (i + 1) (n + 1) (euler_step s h st i)).1).length = n + 2
      rw [List.length_cons, run_rows_length s h (n + 1)]

/-- The first recorded row is the snapshot of the starting state. -/
theorem run_rows_first (s : SystemSpec) (h : ℚ) :
    ∀ (n i : Nat) (st : StateMap), 1 ≤ n →
      (run_rows s h i n st).1.getD 0 [] = quantities_at s st i
  | 0, _, _, hn => absurd hn (by omega)
  | 1, _, _, _ => rfl
  | _ + 2, _, _, _ => rfl

/-- The last recorded row is the snapshot of the final state. -/
theorem run_rows_last (s : SystemSpec) (h : ℚ) :
    ∀ (n i : Nat) (st : StateMap), 1 ≤ n →
      (run_rows s h i n st).1.getD (n - 1) []
        = quantities_at s (run_rows s h i n st).2 (i + (n - 1))
  | 0, _, _, hn => absurd hn (by omega)
  | 1, i, st, _ => by simp [run_rows]
  | n + 2, i, st, _ => by
      have ih := run_rows_last s h (n + 1) (i + 1) (euler_step s h st i) (by omega)
      rw [Nat.succ_sub_one] at ih
      show (quantities_at s st i
          :: (run_rows s h (i + 1) (n + 1) (euler_step s h st i)).1).getD (n + 1) []
        = quantities_at s (run_rows s h (i + 1) (n + 1) (euler_step s h st i)).2
            (i + (n + 1))
      rw [List.getD_cons_succ, ih]
      congr 1
      omega

/-- Every recorded row is the snapshot of some state carrying the key set
of the starting state, taken at the matching time index. -/
theorem run_rows_row (s : SystemSpec) (h : ℚ) :
    ∀ (n i : Nat) (st : StateMap) (j : Nat), j < n →
      ∃ stj, keysQ stj = keysQ st
        ∧ (run_rows s h i n st).1.getD j [] = quantities_at s stj (i + j)
  | 0, _, _, j, hj => absurd hj (by omega)
  | 1, i, st, 0, _ => ⟨st, rfl, by simp [run_rows]⟩
  | 1, _, _, j + 1, hj => absurd hj (by omega)
  | n + 2, i, st, 0, _ => ⟨st, rfl, by simp [run_rows]⟩
  | n + 2, i, st, j + 1, hj => by
      obtain ⟨stj, hk, he⟩ :=
        run_rows_row s h (n + 1) (i + 1) (euler_step s h st i) j (by omega)
      refine ⟨stj, hk.trans (keysQ_euler_step s h st i), ?_⟩
      show (quantities_at s st i
          :: (run_rows s h (i + 1) (n + 1) (euler_step s h st i)).1).getD (j + 1) []
        = quantities_at s stj (i + (j + 1))
      rw [List.getD_cons_succ, he]
      congr 1
      omega

/-- With no duplicated quantities, every defined name occurs at most once. -/
theorem count_le_one_of_no_duplicates (s : SystemSpec)
    (hdup : duplicated_quantities s = []) (x : Quantity) :
    (defined_quantities s).count x ≤ 1 := by
  by_contra hc
  push_neg at hc
  have hx : x ∈ defined_quantities s := List.count_pos_iff.mp (by omega)
  have hmem : x ∈ duplicated_quantities s := by
    rw [duplicated_quantities]
    exact List.mem_dedup.mpr (List.mem_filter.mpr ⟨hx, decide_eq_true (by omega)⟩)
  rw [hdup] at hmem
  cases hmem

/-- With no duplicated quantities, a differential quantity name is not a
parameter, not a driver and not a direct-module output. -/
theorem state_key_exclusive (s : SystemSpec)
    (hdup : duplicated_quantities s = []) (q : Quantity)
    (hq : q ∈ keysQ s.initial_state) :
    q ∉ keysQ s.parameters ∧ q ∉ s.drivers.map Prod.fst
      ∧ q ∉ (s.direct_modules.map ModuleDef.outputs).flatten := by
  have hcount := count_le_one_of_no_duplicates s hdup q
  rw [defined_quantities] at hcount
  simp only [List.count_append] at hcount
  have hS : 0 < (keysQ s.initial_state).count q := List.count_pos_iff.mpr hq
  refine ⟨fun hm => ?_, fun hm => ?_, fun hm => ?_⟩ <;>
    · have := List.count_pos_iff.mpr hm
      omega

/-- With no duplicated quantities, a driver name is not a differential
quantity, not a parameter and not a direct-module output. -/
theorem driver_key_exclusive (s : SystemSpec)
    (hdup : duplicated_quantities s = []) (q : Quantity)
    (hq : q ∈ s.drivers.map Prod.fst) :
    q ∉ keysQ s.initial_state ∧ q ∉ keysQ s.parameters
      ∧ q ∉ (s.direct_modules.map ModuleDef.outputs).flatten := by
  have hcount := count_le_one_of_no_duplicates s hdup q
  rw [defined_quantities] at hcount
  simp only [List.count_append] at hcount
  have hD : 0 < (s.drivers.map Prod.fst).count q := List.count_pos_iff.mpr hq
  refine ⟨fun hm => ?_, fun hm => ?_, fun hm => ?_⟩ <;>
    · have := List.count_pos_iff.mpr hm
      omega

/-- Claim C5: a second integrate call without an intervening reset starts
from the current state: for a valid system the last row of the first
result and the first row of the second agree on every differential
quantity, while every driver quantity repeats identically row for row in
both results. -/
theorem second_integration_continues (sol : OdeSolver) (d : DynamicalSystem)
    (hdup : duplicated_quantities d.spec = [])
    (hkeys : keysQ d.current = differential_quantity_names d.spec)
    (hn : 1 ≤ ntimes d.spec) :
    (∀ q ∈ differential_quantity_names d.spec,
      lookupQ ((integrate sol d).result.getD (ntimes d.spec - 1) []) q
        = lookupQ ((integrate (integrate sol d).solver
            (integrate sol d).system).result.getD 0 []) q)
    ∧ ∀ q ∈ d.spec.drivers.map Prod.fst, ∀ i : Nat,
        lookupQ ((integrate sol d).result.getD i []) q
          = lookupQ ((integrate (integrate sol d).solver
              (integrate sol d).system).result.getD i []) q := by
  simp only [integrate]
  have hfk := run_rows_final_keys d.spec sol.step_size (ntimes d.spec) 0 d.current
  constructor
  · intro q hq
    obtain ⟨hP, hD, hM⟩ := state_key_exclusive d.spec hdup q hq
    rw [run_rows_last d.spec sol.step_size (ntimes d.spec) 0 d.current hn,
      run_rows_first d.spec sol.step_size (ntimes d.spec) 0 _ hn,
      quantities_at_state _ _ _ _ (by rw [hfk, hkeys]; exact hq) hM,
      quantities_at_state _ _ _ _ (by rw [hfk, hkeys]; exact hq) hM]
  · intro q hq i
    obtain ⟨hS, hP, hM⟩ := driver_key_exclusive d.spec hdup q hq
    by_cases hi : i < ntimes d.spec
    · obtain ⟨st1, hk1, he1⟩ :=
        run_rows_row d.spec sol.step_size (ntimes d.spec) 0 d.current i hi
      obtain ⟨st2, hk2, he2⟩ :=
        run_rows_row d.spec sol.step_size (ntimes d.spec) 0
          (run_rows d.spec sol.step_size 0 (ntimes d.spec) d.current).2 i hi
      rw [he1, he2,
        quantities_at_driver _ _ _ _ (by rw [hk1, hkeys]; exact hS) hP hM,
        quantities_at_driver _ _ _ _ (by rw [hk2, hfk, hkeys]; exact hS) hP hM]
    · push_neg at hi
      rw [List.getD_eq_default _ _
          (by rw [run_rows_length d.spec sol.step_size (ntimes d.spec)]; exact hi),
        List.getD_eq_default _ _
          (by rw [run_rows_length d.spec sol.step_size (ntimes d.spec)]; exact hi)]

/-- Witness for claim C5 at the DynamicalSystemTest scenario (harmonic
oscillator, five time points). -/
theorem second_integration_continues_witness :
    duplicated_quantities dynamical_system_test_spec = []
    ∧ keysQ dynamical_system_test_system.current
        = differential_quantity_names dynamical_system_test_spec
    ∧ 1 ≤ ntimes dynamical_system_test_spec
    ∧ ((∀ q ∈ differential_quantity_names dynamical_system_test_spec,
        lookupQ ((integrate dynamical_system_test_solver
            dynamical_system_test_system).result.getD
            (ntimes dynamical_system_test_spec - 1) []) q
          = lookupQ ((integrate
              (integrate dynamical_system_test_solver
                dynamical_system_test_system).solver
              (integrate dynamical_system_test_solver
                dynamical_system_test_system).system).result.getD 0 []) q)
      ∧ ∀ q ∈ dynamical_system_test_spec.drivers.map Prod.fst, ∀ i : Nat,
          lookupQ ((integrate dynamical_system_test_solver
              dynamical_system_test_system).result.getD i []) q
            = lookupQ ((integrate
                (integrate dynamical_system_test_solver
                  dynamical_system_test_system).solver
                (integrate dynamical_system_test_solver
                  dynamical_system_test_system).system).result.getD i []) q) :=
  ⟨by decide, by decide, by decide,
    second_integration_continues dynamical_system_test_solver
      dynamical_system_test_system (by decide) (by decide) (by decide)⟩

end BioCro
